import Mathlib

/-!
# SimpleProjector — Projector Session Coordinator, shallow embedding

This file embeds the projector-session logic of the Electron main process
(`shuffleArray`, `createProjectorWindow` and the IPC handlers
`navigate-projector`, `navigate-projector-to-index`,
`toggle-projector-play-pause`, `update-projector-settings`) as pure Lean
functions over an explicit session state, and proves the specified
properties about them.

Modelling conventions:
* `Math.random()` draws are an explicit stream `js : Nat → Nat`; the source
  computes `j = Math.floor(Math.random() * (i + 1))`, a uniform draw from
  `[0..i]`, which is modelled as `js i % (i + 1)`.
* Mutable module-level variables (`projectorFiles`, `projectorFilesOrder`,
  `currentProjectorIndex`, `isProjectorPlaying`, `isShowingBackground`,
  `projectorSettings`, window handles) become fields of `ProjState`.
* `webContents.send` becomes an emitted event list; `notifyBothWindows`
  sends to the projector window first, then the main window, as in the
  source.
* IPC results `{ success: true, index }` / `{ success: false }` become
  `Option Int` (`some index` / `none`); `toggle-projector-play-pause`
  results become `Option Bool`.
* Only the settings fields the coordinator reads (`loop`, `random`,
  `enableTimeBetweenElements`) are modelled; the remaining fields are
  display-only and never inspected by this logic.
-/

namespace SimpleProjector

/-- The coordinator-relevant part of `ProjectorSettings`. -/
structure Settings where
  loop : Bool
  random : Bool
  enableTimeBetweenElements : Bool
deriving Repr, DecidableEq

/-- One projectable file `{ id, name, type, data }`. -/
structure Item where
  id : String
  name : String
  kind : String
  data : String
deriving Repr, DecidableEq

/-- The in-place swap `[a[i], a[j]] = [a[j], a[i]]` on a list:
both old values are read, then written back crosswise. -/
def listSwap (l : List Nat) (i j : Nat) : List Nat :=
  (l.set i (l.getD j 0)).set j (l.getD i 0)

/-- The Fisher–Yates loop of `shuffleArray`: `for (i = len-1; i > 0; i--)`
swap position `i` with position `j = Math.floor(Math.random() * (i+1))`. -/
def shuffleAux (js : Nat → Nat) : Nat → List Nat → List Nat
  | 0, l => l
  | i + 1, l => shuffleAux js i (listSwap l (i + 1) (js (i + 1) % (i + 2)))

/-- `shuffleArray`: copy the array, then run the Fisher–Yates loop from
index `length - 1` down to `1`. -/
def shuffleArray (js : Nat → Nat) (l : List Nat) : List Nat :=
  shuffleAux js (l.length - 1) l

/-- The order computation both `createProjectorWindow` and
`update-projector-settings` perform:
`random ? shuffleArray(files.map((_, i) => i)) : files.map((_, i) => i)`. -/
def generateOrder (n : Nat) (random : Bool) (js : Nat → Nat) : List Nat :=
  if random then shuffleArray js (List.range n) else List.range n

/-- Event targets: `notifyProjectorWindow` / `notifyMainWindow`. -/
inductive Target
  | projWin
  | mainWin
deriving Repr, DecidableEq

/-- Outbound IPC events the coordinator emits. -/
inductive Ev
  | navigate (idx : Int)
  | playPause (playing : Bool)
  | settingsChanged (s : Settings)
  | filesUpdated (files : List Item)
  | opened
deriving Repr, DecidableEq

/-- An emitted message: target window paired with the event. -/
abbrev Msg := Target × Ev

def notifyProjectorWindow (e : Ev) : List Msg := [(Target.projWin, e)]

def notifyMainWindow (e : Ev) : List Msg := [(Target.mainWin, e)]

/-- `notifyBothWindows` sends to the projector window first, then main. -/
def notifyBothWindows (e : Ev) : List Msg :=
  notifyProjectorWindow e ++ notifyMainWindow e

/-- The module-level mutable session variables of the main process. -/
structure ProjState where
  windowValid : Bool
  projectorFiles : List Item
  projectorSettings : Option Settings
  projectorFilesOrder : List Nat
  currentProjectorIndex : Nat
  isProjectorPlaying : Bool
  isShowingBackground : Bool
deriving Repr, DecidableEq

/-- `random: settings.loop ? settings.random : false` — the normalization
applied by both `createProjectorWindow` and `update-projector-settings`. -/
def validateSettings (s : Settings) : Settings :=
  { s with random := if s.loop then s.random else false }

/-- `initialIndex = order.length > 0 ? order[0] : 0`, announced when the
display surface is (re-)opened. -/
def initialIndex (order : List Nat) : Int :=
  if order.length > 0 then (order.getD 0 0 : Nat) else 0

/-- `createProjectorWindow(files, settings)`. Both the existing-window path
and the `did-finish-load` callback of a fresh window emit the same event
sequence, modelled here once; window chrome (fullscreen, focus, devtools)
is outside the session model. The source overwrites every session
variable, so the prior state is not consulted. -/
def createProjectorWindow (_st : ProjState) (files : List Item)
    (settings : Settings) (js : Nat → Nat) : ProjState × List Msg :=
  let v := validateSettings settings
  let order := generateOrder files.length v.random js
  let playing := v.enableTimeBetweenElements
  let st' : ProjState :=
    { windowValid := true
      projectorFiles := files
      projectorSettings := some v
      projectorFilesOrder := order
      currentProjectorIndex := 0
      isProjectorPlaying := playing
      isShowingBackground := false }
  let evs :=
    notifyProjectorWindow (Ev.settingsChanged v) ++
    notifyProjectorWindow (Ev.navigate (initialIndex order)) ++
    (if playing then notifyBothWindows (Ev.playPause true) else []) ++
    notifyMainWindow Ev.opened ++
    notifyMainWindow (Ev.navigate (initialIndex order))
  (st', evs)

/-- The `update-projector-settings` handler. -/
def updateSettings (st : ProjState) (settings : Settings) (js : Nat → Nat) :
    ProjState × List Msg × Bool :=
  if !st.windowValid then (st, [], false)
  else
    let v := validateSettings settings
    let order := generateOrder st.projectorFiles.length v.random js
    ({ st with projectorSettings := some v, projectorFilesOrder := order },
     notifyProjectorWindow (Ev.settingsChanged v), true)

/-- The local helper `navigateToBackground` of `registerIpcHandlers`. -/
def navigateToBackground (st : ProjState) : ProjState × List Msg × Option Int :=
  ({ st with isProjectorPlaying := false, isShowingBackground := true },
   notifyBothWindows (Ev.playPause false) ++ notifyBothWindows (Ev.navigate (-1)),
   some (-1))

/-- The local helper `navigateToIndex` of `registerIpcHandlers`. -/
def navigateToIndex (st : ProjState) (index : Nat) : ProjState × List Msg × Option Int :=
  ({ st with isShowingBackground := false },
   notifyBothWindows (Ev.navigate (index : Int)), some (index : Int))

/-- Navigation direction of the `navigate-projector` command. -/
inductive Dir
  | next
  | previous
deriving Repr, DecidableEq

/-- The repeat-avoidance `do ... while` loop: step the cursor one position
in the given direction (wrapping), return it as soon as its order entry
differs from `target`, and break (accepting the repeat) when the cursor
comes back around to `start`. The source loop carries no fuel; `advance`
runs it with fuel `order.length`, and the fuel-stability theorems below
show that bound is never exhausted. -/
def skipSearch (order : List Nat) (target start : Nat) (dirNext : Bool) :
    Nat → Nat → Nat
  | cur, 0 => cur
  | cur, fuel + 1 =>
    let c := if dirNext then (cur + 1) % order.length
             else (cur + order.length - 1) % order.length
    if order.getD c 0 ≠ target then c
    else if c = start then c
    else skipSearch order target start dirNext c fuel

/-- The cursor step taken by one probe of the repeat-avoidance loop
(definitionally the `let c := ...` inside `skipSearch`). -/
def stepPos (order : List Nat) (dirNext : Bool) (cur : Nat) : Nat :=
  if dirNext then (cur + 1) % order.length
  else (cur + order.length - 1) % order.length

/-- Whether the stored settings request the no-repeat skip:
`projectorSettings && projectorSettings.random && projectorSettings.loop`. -/
def skipEnabled (st : ProjState) : Bool :=
  match st.projectorSettings with
  | some s => s.random && s.loop
  | none => false

/-- `projectorSettings && !projectorSettings.loop`. -/
def loopDisabled (st : ProjState) : Bool :=
  match st.projectorSettings with
  | some s => !s.loop
  | none => false

/-- The `navigate-projector` handler. -/
def advance (st : ProjState) (dir : Dir) : ProjState × List Msg × Option Int :=
  if !st.windowValid || st.projectorFiles.length == 0
      || st.projectorFilesOrder.length == 0 then
    ({ st with isShowingBackground := true },
     notifyBothWindows (Ev.navigate (-1)), some (-1))
  else if st.isShowingBackground then
    let c := if dir = Dir.next then 0 else st.projectorFilesOrder.length - 1
    navigateToIndex { st with isShowingBackground := false, currentProjectorIndex := c }
      (st.projectorFilesOrder.getD c 0)
  else
    let order := st.projectorFilesOrder
    let len := order.length
    let currentFileIndex := order.getD st.currentProjectorIndex 0
    match dir with
    | Dir.next =>
      let nextIndex := st.currentProjectorIndex + 1
      if nextIndex ≥ len ∧ loopDisabled st then navigateToBackground st
      else
        let c0 := nextIndex % len
        let c1 := if skipEnabled st ∧ len > 1 ∧ order.getD c0 0 = currentFileIndex
                  then skipSearch order currentFileIndex c0 true c0 len
                  else c0
        navigateToIndex { st with currentProjectorIndex := c1 } (order.getD c1 0)
    | Dir.previous =>
      if st.currentProjectorIndex = 0 then
        if loopDisabled st then navigateToBackground st
        else
          let c0 := len - 1
          let c1 := if skipEnabled st ∧ len > 1 ∧ order.getD c0 0 = currentFileIndex
                    then skipSearch order currentFileIndex c0 false c0 len
                    else c0
          navigateToIndex { st with currentProjectorIndex := c1 } (order.getD c1 0)
      else
        let c1 := st.currentProjectorIndex - 1
        navigateToIndex { st with currentProjectorIndex := c1 } (order.getD c1 0)

/-- The `navigate-projector-to-index` handler (`jumpTo`). -/
def navigateProjectorToIndex (st : ProjState) (targetIndex : Int) :
    ProjState × List Msg × Option Int :=
  if !st.windowValid || st.projectorFiles.length == 0
      || st.projectorFilesOrder.length == 0 then
    (st, [], none)
  else if targetIndex < 0 ∨ (st.projectorFiles.length : Int) ≤ targetIndex then
    (st, [], none)
  else
    let idx := targetIndex.toNat
    if idx ∈ st.projectorFilesOrder then
      navigateToIndex
        { st with currentProjectorIndex := st.projectorFilesOrder.indexOf idx } idx
    else
      (st, [], none)

/-- The `update-projector-files` handler: replace the item list, force
`random = false` when loop is off, regenerate the order (shuffled only when
`random && loop`), clamp the cursor (`Math.max(0, len - 1)` becomes plain
truncated subtraction on `Nat`), then re-announce the position. -/
def updateFiles (st : ProjState) (files : List Item) (js : Nat → Nat) :
    ProjState × List Msg × Bool :=
  if !st.windowValid then (st, [], false)
  else
    let settings' := match st.projectorSettings with
      | some s => some (if !s.loop then { s with random := false } else s)
      | none => none
    let rand := match settings' with
      | some s => s.random && s.loop
      | none => false
    let order := generateOrder files.length rand js
    let cursor := if st.currentProjectorIndex ≥ order.length then order.length - 1
                  else st.currentProjectorIndex
    let st1 := { st with
      projectorFiles := files
      projectorSettings := settings'
      projectorFilesOrder := order
      currentProjectorIndex := cursor }
    if order.length > 0 then
      let r := navigateToIndex st1 (order.getD cursor 0)
      (r.1, notifyProjectorWindow (Ev.filesUpdated files) ++ r.2.1, true)
    else
      ({ st1 with isShowingBackground := true },
       notifyProjectorWindow (Ev.filesUpdated files) ++
         notifyBothWindows (Ev.navigate (-1)), true)

/-- The `toggle-projector-play-pause` handler. -/
def togglePlayPause (st : ProjState) : ProjState × List Msg × Option Bool :=
  if !st.windowValid then (st, [], none)
  else
    let wasPlaying := st.isProjectorPlaying
    let playing := !st.isProjectorPlaying
    let st1 := { st with isProjectorPlaying := playing }
    let navPart :=
      if st1.isShowingBackground && playing && !wasPlaying
          && st1.projectorFilesOrder.length > 0 then
        some ({ st1 with isShowingBackground := false, currentProjectorIndex := 0 },
          notifyBothWindows (Ev.navigate (st1.projectorFilesOrder.getD 0 0 : Nat)))
      else none
    let st2 := (navPart.map Prod.fst).getD st1
    let evs1 := (navPart.map Prod.snd).getD []
    (st2, evs1 ++ notifyBothWindows (Ev.playPause playing), some playing)

/-! ## Concrete fixtures used by counterexamples and witnesses -/

def itemA : Item := ⟨"idA", "a.png", "image", "dataA"⟩

def itemA2 : Item := ⟨"idA", "a2.png", "image", "dataA2"⟩

def itemB : Item := ⟨"idB", "b.png", "image", "dataB"⟩

/-- loop on, random on, auto-advance off. -/
def settingsLR : Settings := ⟨true, true, false⟩

/-- loop off, random requested on. -/
def settingsNoLoop : Settings := ⟨false, true, false⟩

/-- loop off, random off. -/
def settingsPlain : Settings := ⟨false, false, false⟩

/-- A live session over three distinct items, identity order. -/
def baseState : ProjState :=
  { windowValid := true
    projectorFiles := [itemA, itemB, itemA2]
    projectorSettings := some settingsPlain
    projectorFilesOrder := [0, 1, 2]
    currentProjectorIndex := 2
    isProjectorPlaying := false
    isShowingBackground := false }

/-- The id of the item shown at order position `p` (empty when absent). -/
def itemIdAtPos (st : ProjState) (p : Nat) : String :=
  match st.projectorFiles.get? (st.projectorFilesOrder.getD p 0) with
  | some it => it.id
  | none => ""

/-- A looping shuffled session whose items 0 and 1 share the id `"idA"`;
the order is a genuine permutation, the cursor sits on the last position
(item 1, id `"idA"`) and the wrapped position 0 holds item 0 (also
`"idA"`). -/
def stC4 : ProjState :=
  { windowValid := true
    projectorFiles := [itemA, itemA2, itemB]
    projectorSettings := some settingsLR
    projectorFilesOrder := [0, 2, 1]
    currentProjectorIndex := 2
    isProjectorPlaying := false
    isShowingBackground := false }

/-- A live two-item session with identity order. -/
def st7 : ProjState :=
  { windowValid := true
    projectorFiles := [itemA, itemB]
    projectorSettings := some settingsPlain
    projectorFilesOrder := [0, 1]
    currentProjectorIndex := 0
    isProjectorPlaying := false
    isShowingBackground := false }

/-- A session showing Background while the playing flag is still set
(reachable: play a session, then let the display surface report index -1
via `notify-projector-index-change`, which sets Background without
touching the playing flag). -/
def st8 : ProjState :=
  { windowValid := true
    projectorFiles := [itemA]
    projectorSettings := some settingsPlain
    projectorFilesOrder := [0]
    currentProjectorIndex := 0
    isProjectorPlaying := true
    isShowingBackground := true }

/-- `st8` but paused, as assumed by the amended C8. -/
def stW8 : ProjState :=
  { st8 with isProjectorPlaying := false }

/-- `baseState` with the display surface gone. -/
def stInv : ProjState :=
  { baseState with windowValid := false }

/-- A looping shuffled session whose (degenerate, duplicate-entry) order
repeats entry 1 at both ends, with a different entry in between. -/
def stW4 : ProjState :=
  { windowValid := true
    projectorFiles := [itemA, itemA2, itemB]
    projectorSettings := some settingsLR
    projectorFilesOrder := [1, 0, 1]
    currentProjectorIndex := 2
    isProjectorPlaying := false
    isShowingBackground := false }

/-! ## Theorems -/

theorem listSwap_length (l : List Nat) (i j : Nat) :
    (listSwap l i j).length = l.length := by
  simp [listSwap]

theorem cons_set_perm (b : Nat) :
    ∀ (t : List Nat) (k : Nat), k < t.length →
      (t.getD k 0 :: t.set k b).Perm (b :: t)
  | c :: t', 0, _ => by
      simpa using List.Perm.swap b c t'
  | c :: t', k + 1, h => by
      have ih := cons_set_perm b t' k (by simpa using h)
      have step1 : (t'.getD k 0 :: c :: t'.set k b).Perm
          (c :: t'.getD k 0 :: t'.set k b) := List.Perm.swap _ _ _
      have step2 : (c :: t'.getD k 0 :: t'.set k b).Perm (c :: b :: t') := ih.cons c
      have step3 : (c :: b :: t').Perm (b :: c :: t') := List.Perm.swap _ _ _
      simpa using (step1.trans step2).trans step3

theorem listSwap_perm :
    ∀ (l : List Nat) (i j : Nat), i < l.length → j < l.length →
      (listSwap l i j).Perm l
  | a :: t, 0, 0, _, _ => by
      simp [listSwap]
  | a :: t, 0, k + 1, _, hj => by
      have hk : k < t.length := by simpa using hj
      simpa [listSwap] using cons_set_perm a t k hk
  | a :: t, m + 1, 0, hi, _ => by
      have hm : m < t.length := by simpa using hi
      simpa [listSwap] using cons_set_perm a t m hm
  | a :: t, m + 1, k + 1, hi, hj => by
      have hm : m < t.length := by simpa using hi
      have hk : k < t.length := by simpa using hj
      have ih := listSwap_perm t m k hm hk
      simpa [listSwap] using ih.cons a

theorem shuffleAux_perm (js : Nat → Nat) :
    ∀ (i : Nat) (l : List Nat), i < l.length → (shuffleAux js i l).Perm l
  | 0, l, _ => List.Perm.refl l
  | i + 1, l, h => by
      have hj : js (i + 1) % (i + 2) < l.length :=
        lt_of_lt_of_le (Nat.mod_lt _ (by omega)) (by omega)
      have hswap := listSwap_perm l (i + 1) (js (i + 1) % (i + 2)) h hj
      have hlen : (listSwap l (i + 1) (js (i + 1) % (i + 2))).length = l.length :=
        listSwap_length l _ _
      have ih := shuffleAux_perm js i (listSwap l (i + 1) (js (i + 1) % (i + 2)))
        (by omega)
      exact (ih.trans hswap)

theorem shuffleArray_perm (js : Nat → Nat) (l : List Nat) :
    (shuffleArray js l).Perm l := by
  cases l with
  | nil => simp [shuffleArray, shuffleAux]
  | cons a t =>
      exact shuffleAux_perm js ((a :: t).length - 1) (a :: t) (by simp)

theorem generateOrder_perm (n : Nat) (random : Bool) (js : Nat → Nat) :
    (generateOrder n random js).Perm (List.range n) := by
  unfold generateOrder
  cases random with
  | false => simp
  | true => simpa using shuffleArray_perm js (List.range n)

theorem generateOrder_length (n : Nat) (random : Bool) (js : Nat → Nat) :
    (generateOrder n random js).length = n := by
  simpa using (generateOrder_perm n random js).length_eq

theorem generateOrder_nodup (n : Nat) (random : Bool) (js : Nat → Nat) :
    (generateOrder n random js).Nodup :=
  (generateOrder_perm n random js).nodup_iff.mpr (List.nodup_range n)

theorem generateOrder_mem (n : Nat) (random : Bool) (js : Nat → Nat) (i : Nat) :
    i ∈ generateOrder n random js ↔ i < n := by
  rw [(generateOrder_perm n random js).mem_iff, List.mem_range]

theorem generateOrder_count (n : Nat) (random : Bool) (js : Nat → Nat) (i : Nat)
    (h : i < n) : (generateOrder n random js).count i = 1 :=
  List.count_eq_one_of_mem (generateOrder_nodup n random js)
    ((generateOrder_mem n random js i).mpr h)

/-- All permutation facts about `generateOrder` in one bundle. -/
theorem generateOrder_spec (n : Nat) (r : Bool) (js : Nat → Nat) :
    (generateOrder n r js).Perm (List.range n) ∧
    (generateOrder n r js).length = n ∧
    (generateOrder n r js).Nodup ∧
    (∀ i, i ∈ generateOrder n r js ↔ i < n) ∧
    (∀ i, i < n → (generateOrder n r js).count i = 1) ∧
    (r = false → generateOrder n r js = List.range n) :=
  ⟨generateOrder_perm n r js, generateOrder_length n r js,
   generateOrder_nodup n r js, fun i => generateOrder_mem n r js i,
   fun i h => generateOrder_count n r js i h,
   fun h => by simp [generateOrder, h]⟩

theorem createProjectorWindow_order (st : ProjState) (files : List Item)
    (settings : Settings) (js : Nat → Nat) :
    (createProjectorWindow st files settings js).1.projectorFilesOrder
      = generateOrder files.length (validateSettings settings).random js := rfl

theorem updateSettings_order (st : ProjState) (settings : Settings)
    (js : Nat → Nat) (hw : st.windowValid = true) :
    (updateSettings st settings js).1.projectorFilesOrder
      = generateOrder st.projectorFiles.length (validateSettings settings).random js := by
  simp [updateSettings, hw]

theorem updateFiles_order (st : ProjState) (files : List Item)
    (js : Nat → Nat) (hw : st.windowValid = true) :
    ∃ r : Bool, (updateFiles st files js).1.projectorFilesOrder
      = generateOrder files.length r js := by
  unfold updateFiles
  rw [hw]
  simp only [Bool.not_true, Bool.false_eq_true, if_false]
  split <;> exact ⟨_, rfl⟩

/-- C1: the display order produced at session start
(`createProjectorWindow`), by `update-projector-settings` and by
`update-projector-files` is a permutation of `[0..N)` for the current item
count `N`: it has length `N`, no duplicates, and every index below `N`
occurs exactly once; with shuffle off it is the identity order. -/
theorem claim_C1_display_order_permutation (st : ProjState) (files : List Item)
    (settings : Settings) (js js2 js3 : Nat → Nat) :
    ((createProjectorWindow st files settings js).1.projectorFilesOrder.Perm
        (List.range files.length) ∧
      (createProjectorWindow st files settings js).1.projectorFilesOrder.length
        = files.length ∧
      (createProjectorWindow st files settings js).1.projectorFilesOrder.Nodup ∧
      (∀ i, i ∈ (createProjectorWindow st files settings js).1.projectorFilesOrder
        ↔ i < files.length) ∧
      (∀ i, i < files.length →
        (createProjectorWindow st files settings js).1.projectorFilesOrder.count i = 1) ∧
      ((validateSettings settings).random = false →
        (createProjectorWindow st files settings js).1.projectorFilesOrder
          = List.range files.length)) ∧
    (st.windowValid = true →
      (updateSettings st settings js2).1.projectorFilesOrder.Perm
          (List.range st.projectorFiles.length) ∧
        (updateSettings st settings js2).1.projectorFilesOrder.Nodup ∧
        (updateSettings st settings js2).1.projectorFilesOrder.length
          = st.projectorFiles.length) ∧
    (st.windowValid = true →
      (updateFiles st files js3).1.projectorFilesOrder.Perm
          (List.range files.length) ∧
        (updateFiles st files js3).1.projectorFilesOrder.Nodup ∧
        (updateFiles st files js3).1.projectorFilesOrder.length = files.length) := by
  refine ⟨?_, ?_, ?_⟩
  · rw [createProjectorWindow_order]
    exact generateOrder_spec files.length (validateSettings settings).random js
  · intro hw
    rw [updateSettings_order st settings js2 hw]
    exact ⟨(generateOrder_spec _ _ _).1, (generateOrder_spec _ _ _).2.2.1,
      (generateOrder_spec _ _ _).2.1⟩
  · intro hw
    obtain ⟨r, hr⟩ := updateFiles_order st files js3 hw
    rw [hr]
    exact ⟨(generateOrder_spec _ _ _).1, (generateOrder_spec _ _ _).2.2.1,
      (generateOrder_spec _ _ _).2.1⟩

/-- Closed instance of C1 at a concrete session. -/
theorem claim_C1_display_order_permutation_witness :
    (createProjectorWindow baseState [itemA, itemB] settingsPlain
        (fun _ => 0)).1.projectorFilesOrder = List.range 2 ∧
    (updateSettings baseState settingsLR (fun _ => 0)).1.projectorFilesOrder.Perm
      (List.range 3) := by
  have h := claim_C1_display_order_permutation baseState [itemA, itemB]
    settingsPlain (fun _ => 0) (fun _ => 0) (fun _ => 0)
  have h2 := claim_C1_display_order_permutation baseState [itemA, itemB]
    settingsLR (fun _ => 0) (fun _ => 0) (fun _ => 0)
  refine ⟨?_, ?_⟩
  · have := h.1.2.2.2.2.2 (by decide)
    simpa using this
  · have := (h2.2.1 rfl).1
    simpa [baseState] using this

/-- C2: both `createProjectorWindow` and the `update-projector-settings`
handler normalize the stored settings with
`random := loop ? random : false`, so a request with `loop = false` always
stores `random = false`. -/
theorem claim_C2_shuffle_implies_loop (st : ProjState) (files : List Item)
    (settings : Settings) (js js2 : Nat → Nat) (hloop : settings.loop = false) :
    (createProjectorWindow st files settings js).1.projectorSettings
      = some { settings with random := false } ∧
    (st.windowValid = true →
      (updateSettings st settings js2).1.projectorSettings
        = some { settings with random := false }) := by
  constructor
  · show some (validateSettings settings) = _
    simp [validateSettings, hloop]
  · intro hw
    simp [updateSettings, hw, validateSettings, hloop]

/-- Closed instance of C2: `updateSettings {loop := false, random := true}`
stores `random = false`, both on session creation and on update. -/
theorem claim_C2_shuffle_implies_loop_witness :
    (createProjectorWindow baseState [itemA] settingsNoLoop
        (fun _ => 0)).1.projectorSettings
      = some { settingsNoLoop with random := false } ∧
    (updateSettings baseState settingsNoLoop (fun _ => 0)).1.projectorSettings
      = some { settingsNoLoop with random := false } := by
  have h := claim_C2_shuffle_implies_loop baseState [itemA] settingsNoLoop
    (fun _ => 0) (fun _ => 0) (by decide)
  exact ⟨h.1, h.2 rfl⟩

/-- C3: with `loop = false`, a non-empty order and the cursor on the last
order position, `advance(Next)` stops playback, enters Background and emits
`PlayPause(false)` then `Navigate(-1)` to both surfaces in that per-target
order; a further `advance(Next)` from Background resumes at order position
0 and `advance(Previous)` from Background resumes at the last position,
each emitting `Navigate(order[cursor])` to both surfaces. -/
theorem claim_C3_end_of_sequence (st : ProjState) (stg : Settings)
    (hw : st.windowValid = true)
    (hf : st.projectorFiles ≠ [])
    (ho : st.projectorFilesOrder ≠ [])
    (hs : st.projectorSettings = some stg)
    (hl : stg.loop = false)
    (hb : st.isShowingBackground = false)
    (hc : st.currentProjectorIndex = st.projectorFilesOrder.length - 1) :
    (advance st Dir.next).1.isProjectorPlaying = false ∧
    (advance st Dir.next).1.isShowingBackground = true ∧
    (advance st Dir.next).2.1 =
      [(Target.projWin, Ev.playPause false), (Target.mainWin, Ev.playPause false),
       (Target.projWin, Ev.navigate (-1)), (Target.mainWin, Ev.navigate (-1))] ∧
    (advance st Dir.next).2.2 = some (-1) ∧
    (advance (advance st Dir.next).1 Dir.next).1.isShowingBackground = false ∧
    (advance (advance st Dir.next).1 Dir.next).1.currentProjectorIndex = 0 ∧
    (advance (advance st Dir.next).1 Dir.next).2.1 =
      [(Target.projWin, Ev.navigate (st.projectorFilesOrder.getD 0 0 : Nat)),
       (Target.mainWin, Ev.navigate (st.projectorFilesOrder.getD 0 0 : Nat))] ∧
    (advance (advance st Dir.next).1 Dir.previous).1.isShowingBackground = false ∧
    (advance (advance st Dir.next).1 Dir.previous).1.currentProjectorIndex
      = st.projectorFilesOrder.length - 1 ∧
    (advance (advance st Dir.next).1 Dir.previous).2.1 =
      [(Target.projWin, Ev.navigate
          (st.projectorFilesOrder.getD (st.projectorFilesOrder.length - 1) 0 : Nat)),
       (Target.mainWin, Ev.navigate
          (st.projectorFilesOrder.getD (st.projectorFilesOrder.length - 1) 0 : Nat))] := by
  have hlen : 0 < st.projectorFilesOrder.length := List.length_pos.mpr ho
  have hflen : st.projectorFiles.length ≠ 0 := fun h => hf (List.length_eq_zero.mp h)
  have holen : st.projectorFilesOrder.length ≠ 0 := fun h => ho (List.length_eq_zero.mp h)
  have hsucc : st.projectorFilesOrder.length - 1 + 1 = st.projectorFilesOrder.length :=
    Nat.succ_pred_eq_of_pos hlen
  have h1 : advance st Dir.next = navigateToBackground st := by
    unfold advance
    simp [hw, hflen, holen, hb, hc, hsucc, loopDisabled, hs, hl]
  have h2 : (advance st Dir.next).1 =
      { st with isProjectorPlaying := false, isShowingBackground := true } := by
    rw [h1]; rfl
  refine ⟨by rw [h2], by rw [h2], ?_, by rw [h1]; rfl, ?_⟩
  · rw [h1]
    simp [navigateToBackground, notifyBothWindows, notifyProjectorWindow,
      notifyMainWindow]
  · rw [h2]
    unfold advance
    simp only [hw, hflen, holen]
    simp [hf, ho, navigateToIndex, notifyBothWindows, notifyProjectorWindow,
      notifyMainWindow]

/-- Closed instance of C3 at a concrete three-item session. -/
theorem claim_C3_end_of_sequence_witness :
    (advance { baseState with projectorSettings := some settingsPlain } Dir.next).2.1 =
      [(Target.projWin, Ev.playPause false), (Target.mainWin, Ev.playPause false),
       (Target.projWin, Ev.navigate (-1)), (Target.mainWin, Ev.navigate (-1))] ∧
    (advance (advance { baseState with projectorSettings := some settingsPlain }
        Dir.next).1 Dir.next).1.currentProjectorIndex = 0 :=
  have h := claim_C3_end_of_sequence
    { baseState with projectorSettings := some settingsPlain } settingsPlain
    rfl (by decide) (by decide) rfl rfl rfl (by decide)
  ⟨h.2.2.1, h.2.2.2.2.2.1⟩

/-- One-step unfolding of the repeat-avoidance loop. -/
theorem skipSearch_succ (order : List Nat) (target start : Nat) (dirNext : Bool)
    (cur fuel : Nat) :
    skipSearch order target start dirNext cur (fuel + 1)
      = (if order.getD (stepPos order dirNext cur) 0 ≠ target
         then stepPos order dirNext cur
         else if stepPos order dirNext cur = start then stepPos order dirNext cur
         else skipSearch order target start dirNext (stepPos order dirNext cur) fuel) :=
  rfl

/-- The loop returns the probed position when its entry differs. -/
theorem skipSearch_exit (order : List Nat) (target start : Nat) (dirNext : Bool)
    (cur fuel c : Nat) (hc : stepPos order dirNext cur = c)
    (h : order.getD c 0 ≠ target) :
    skipSearch order target start dirNext cur (fuel + 1) = c := by
  rw [skipSearch_succ, hc, if_pos h]

/-- The loop accepts the repeat when it comes back around to `start`. -/
theorem skipSearch_break (order : List Nat) (target start : Nat) (dirNext : Bool)
    (cur fuel : Nat) (hc : stepPos order dirNext cur = start)
    (h : order.getD start 0 = target) :
    skipSearch order target start dirNext cur (fuel + 1) = start := by
  rw [skipSearch_succ, hc, if_neg (by simpa using h), if_pos rfl]

/-- The loop keeps probing while the entry matches and `start` not reached. -/
theorem skipSearch_go (order : List Nat) (target start : Nat) (dirNext : Bool)
    (cur fuel c : Nat) (hc : stepPos order dirNext cur = c)
    (h : order.getD c 0 = target) (hne : c ≠ start) :
    skipSearch order target start dirNext cur (fuel + 1)
      = skipSearch order target start dirNext c fuel := by
  rw [skipSearch_succ, hc, if_neg (by simpa using h), if_neg hne]

/-- Walking forward from start position `0` (the `Next`-wrap case), the
repeat-avoidance loop stays in bounds, returns the start when every entry
equals the target, and otherwise lands on an entry different from the
target; `cur + fuel = length` mirrors the loop's progress (the walk is back
at the start after exactly `length` probes). -/
theorem skipSearchNext_spec (order : List Nat) (target : Nat)
    (htarget : order.getD 0 0 = target) :
    ∀ (fuel cur : Nat), cur + fuel = order.length → cur < order.length →
      skipSearch order target 0 true cur fuel < order.length ∧
      ((∀ j, cur < j → j < order.length → order.getD j 0 = target) →
        skipSearch order target 0 true cur fuel = 0) ∧
      ((∃ j, cur < j ∧ j < order.length ∧ order.getD j 0 ≠ target) →
        order.getD (skipSearch order target 0 true cur fuel) 0 ≠ target) := by
  intro fuel
  induction fuel with
  | zero => intro cur hsum hlt; omega
  | succ f ih =>
    intro cur hsum hlt
    by_cases hend : cur + 1 = order.length
    · have hc : stepPos order true cur = 0 := by
        simp only [stepPos, if_pos]
        rw [hend]
        exact Nat.mod_self _
      have hres : skipSearch order target 0 true cur (f + 1) = 0 :=
        skipSearch_break order target 0 true cur f hc htarget
      refine ⟨by rw [hres]; omega, fun _ => hres, ?_⟩
      rintro ⟨j, hj1, hj2, _⟩
      exact (by omega : False).elim
    · have hc : stepPos order true cur = cur + 1 := by
        simp only [stepPos, if_pos]
        exact Nat.mod_eq_of_lt (by omega)
      by_cases hval : order.getD (cur + 1) 0 = target
      · have hne : cur + 1 ≠ 0 := by omega
        have hres := skipSearch_go order target 0 true cur f (cur + 1) hc hval hne
        have IH := ih (cur + 1) (by omega) (by omega)
        rw [hres]
        refine ⟨IH.1, fun hall => IH.2.1 (fun j h1 h2 => hall j (by omega) h2), ?_⟩
        rintro ⟨j, hj1, hj2, hj3⟩
        refine IH.2.2 ⟨j, ?_, hj2, hj3⟩
        rcases Nat.lt_or_ge (cur + 1) j with h | h
        · exact h
        · have hj : j = cur + 1 := by omega
          rw [hj] at hj3
          exact absurd hval hj3
      · have hres := skipSearch_exit order target 0 true cur f (cur + 1) hc hval
        rw [hres]
        exact ⟨by omega, fun hall => absurd (hall (cur + 1) (by omega) (by omega)) hval,
          fun _ => hval⟩

/-- Walking backward from start position `length - 1` (the `Previous`-wrap
case): the loop stays in bounds, returns the start when every entry below
the cursor equals the target, and otherwise lands on a different entry;
here `cur + 1 = fuel ≤ length` mirrors the loop's progress. -/
theorem skipSearchPrev_spec (order : List Nat) (target : Nat)
    (htarget : order.getD (order.length - 1) 0 = target) :
    ∀ (fuel cur : Nat), cur + 1 = fuel → fuel ≤ order.length →
      skipSearch order target (order.length - 1) false cur fuel < order.length ∧
      ((∀ j, j < cur → order.getD j 0 = target) →
        skipSearch order target (order.length - 1) false cur fuel
          = order.length - 1) ∧
      ((∃ j, j < cur ∧ order.getD j 0 ≠ target) →
        order.getD (skipSearch order target (order.length - 1) false cur fuel) 0
          ≠ target) := by
  intro fuel
  induction fuel with
  | zero => intro cur hsum hle; omega
  | succ f ih =>
    intro cur hsum hle
    have hlen : 0 < order.length := by omega
    rcases Nat.eq_zero_or_pos cur with h0 | hpos
    · subst h0
      have hc : stepPos order false 0 = order.length - 1 := by
        simp only [stepPos, if_neg (Bool.false_ne_true), Nat.zero_add]
        exact Nat.mod_eq_of_lt (by omega)
      have hres : skipSearch order target (order.length - 1) false 0 (f + 1)
          = order.length - 1 :=
        skipSearch_break order target (order.length - 1) false 0 f hc htarget
      refine ⟨by rw [hres]; omega, fun _ => hres, ?_⟩
      rintro ⟨j, hj1, _⟩
      exact (by omega : False).elim
    · have hc : stepPos order false cur = cur - 1 := by
        simp only [stepPos, if_neg (Bool.false_ne_true)]
        have h1 : cur + order.length - 1 = order.length + (cur - 1) := by omega
        rw [h1, Nat.add_mod_left]
        exact Nat.mod_eq_of_lt (by omega)
      by_cases hval : order.getD (cur - 1) 0 = target
      · have hne : cur - 1 ≠ order.length - 1 := by omega
        have hres := skipSearch_go order target (order.length - 1) false cur f
          (cur - 1) hc hval hne
        have IH := ih (cur - 1) (by omega) (by omega)
        rw [hres]
        refine ⟨IH.1, fun hall => IH.2.1 (fun j h1 => hall j (by omega)), ?_⟩
        rintro ⟨j, hj1, hj3⟩
        refine IH.2.2 ⟨j, ?_, hj3⟩
        rcases Nat.lt_or_ge j (cur - 1) with h | h
        · exact h
        · have hj : j = cur - 1 := by omega
          rw [hj] at hj3
          exact absurd hval hj3
      · have hres := skipSearch_exit order target (order.length - 1) false cur f
          (cur - 1) hc hval
        rw [hres]
        exact ⟨by omega, fun hall => absurd (hall (cur - 1) (by omega)) hval,
          fun _ => hval⟩

/-- Fuel-stability of the forward walk: with `cur + fuel = length` the loop
exits before the fuel runs out, so extra fuel changes nothing. -/
theorem skipSearchNext_stable (order : List Nat) (target : Nat)
    (htarget : order.getD 0 0 = target) :
    ∀ (fuel cur : Nat), cur + fuel = order.length → cur < order.length → ∀ k,
      skipSearch order target 0 true cur (fuel + k)
        = skipSearch order target 0 true cur fuel := by
  intro fuel
  induction fuel with
  | zero => intro cur hsum hlt; omega
  | succ f ih =>
    intro cur hsum hlt k
    have hrw : f + 1 + k = (f + k) + 1 := by omega
    rw [hrw]
    by_cases hend : cur + 1 = order.length
    · have hc : stepPos order true cur = 0 := by
        simp only [stepPos, if_pos]
        rw [hend]
        exact Nat.mod_self _
      rw [skipSearch_break order target 0 true cur (f + k) hc htarget,
        skipSearch_break order target 0 true cur f hc htarget]
    · have hc : stepPos order true cur = cur + 1 := by
        simp only [stepPos, if_pos]
        exact Nat.mod_eq_of_lt (by omega)
      by_cases hval : order.getD (cur + 1) 0 = target
      · have hne : cur + 1 ≠ 0 := by omega
        rw [skipSearch_go order target 0 true cur (f + k) (cur + 1) hc hval hne,
          skipSearch_go order target 0 true cur f (cur + 1) hc hval hne,
          ih (cur + 1) (by omega) (by omega) k]
      · rw [skipSearch_exit order target 0 true cur (f + k) (cur + 1) hc hval,
          skipSearch_exit order target 0 true cur f (cur + 1) hc hval]

/-- Fuel-stability of the backward walk. -/
theorem skipSearchPrev_stable (order : List Nat) (target : Nat)
    (htarget : order.getD (order.length - 1) 0 = target) :
    ∀ (fuel cur : Nat), cur + 1 = fuel → fuel ≤ order.length → ∀ k,
      skipSearch order target (order.length - 1) false cur (fuel + k)
        = skipSearch order target (order.length - 1) false cur fuel := by
  intro fuel
  induction fuel with
  | zero => intro cur hsum hle; omega
  | succ f ih =>
    intro cur hsum hle k
    have hlen : 0 < order.length := by omega
    have hrw : f + 1 + k = (f + k) + 1 := by omega
    rw [hrw]
    rcases Nat.eq_zero_or_pos cur with h0 | hpos
    · subst h0
      have hc : stepPos order false 0 = order.length - 1 := by
        simp only [stepPos, if_neg (Bool.false_ne_true), Nat.zero_add]
        exact Nat.mod_eq_of_lt (by omega)
      rw [skipSearch_break order target (order.length - 1) false 0 (f + k) hc htarget,
        skipSearch_break order target (order.length - 1) false 0 f hc htarget]
    · have hc : stepPos order false cur = cur - 1 := by
        simp only [stepPos, if_neg (Bool.false_ne_true)]
        have h1 : cur + order.length - 1 = order.length + (cur - 1) := by omega
        rw [h1, Nat.add_mod_left]
        exact Nat.mod_eq_of_lt (by omega)
      by_cases hval : order.getD (cur - 1) 0 = target
      · have hne : cur - 1 ≠ order.length - 1 := by omega
        rw [skipSearch_go order target (order.length - 1) false cur (f + k)
            (cur - 1) hc hval hne,
          skipSearch_go order target (order.length - 1) false cur f
            (cur - 1) hc hval hne,
          ih (cur - 1) (by omega) (by omega) k]
      · rw [skipSearch_exit order target (order.length - 1) false cur (f + k)
            (cur - 1) hc hval,
          skipSearch_exit order target (order.length - 1) false cur f
            (cur - 1) hc hval]

/-- Under looping shuffle, a `Next` from the last order position whose
wrapped entry repeats the current entry runs the repeat-avoidance loop. -/
theorem advance_next_wrap_skip (st : ProjState) (stg : Settings)
    (hw : st.windowValid = true)
    (hf : st.projectorFiles ≠ [])
    (hs : st.projectorSettings = some stg)
    (hloop : stg.loop = true) (hrand : stg.random = true)
    (hlen : 1 < st.projectorFilesOrder.length)
    (hb : st.isShowingBackground = false)
    (hc : st.currentProjectorIndex = st.projectorFilesOrder.length - 1)
    (heq : st.projectorFilesOrder.getD 0 0
      = st.projectorFilesOrder.getD (st.projectorFilesOrder.length - 1) 0) :
    (advance st Dir.next).1.currentProjectorIndex
      = skipSearch st.projectorFilesOrder
          (st.projectorFilesOrder.getD (st.projectorFilesOrder.length - 1) 0)
          0 true 0 st.projectorFilesOrder.length := by
  have hflen : st.projectorFiles.length ≠ 0 := fun h => hf (List.length_eq_zero.mp h)
  have holen : st.projectorFilesOrder.length ≠ 0 := by omega
  have hld : loopDisabled st = false := by simp [loopDisabled, hs, hloop]
  have hse : skipEnabled st = true := by simp [skipEnabled, hs, hloop, hrand]
  have hsucc : st.projectorFilesOrder.length - 1 + 1 = st.projectorFilesOrder.length := by
    omega
  unfold advance
  simp only [hw, hb, hc, hsucc, hld, hse]
  simp [hflen, holen, Nat.mod_self, heq, navigateToIndex, hlen]
  intro hne
  exact absurd (by simpa using heq) hne

/-- Under looping shuffle, a `Previous` from order position 0 whose wrapped
entry repeats the current entry runs the repeat-avoidance loop. -/
theorem advance_prev_wrap_skip (st : ProjState) (stg : Settings)
    (hw : st.windowValid = true)
    (hf : st.projectorFiles ≠ [])
    (hs : st.projectorSettings = some stg)
    (hloop : stg.loop = true) (hrand : stg.random = true)
    (hlen : 1 < st.projectorFilesOrder.length)
    (hb : st.isShowingBackground = false)
    (hc : st.currentProjectorIndex = 0)
    (heq : st.projectorFilesOrder.getD (st.projectorFilesOrder.length - 1) 0
      = st.projectorFilesOrder.getD 0 0) :
    (advance st Dir.previous).1.currentProjectorIndex
      = skipSearch st.projectorFilesOrder (st.projectorFilesOrder.getD 0 0)
          (st.projectorFilesOrder.length - 1) false
          (st.projectorFilesOrder.length - 1) st.projectorFilesOrder.length := by
  have hflen : st.projectorFiles.length ≠ 0 := fun h => hf (List.length_eq_zero.mp h)
  have holen : st.projectorFilesOrder.length ≠ 0 := by omega
  have hld : loopDisabled st = false := by simp [loopDisabled, hs, hloop]
  have hse : skipEnabled st = true := by simp [skipEnabled, hs, hloop, hrand]
  unfold advance
  simp only [hw, hb, hc, hld, hse]
  simp [hflen, holen, heq, navigateToIndex, hlen]
  intro hne
  exact absurd (by simpa using heq) hne

/-- C4 as stated is false on the code: the no-repeat check compares order
entries (item indexes), never item ids. In `stC4` (loop on, shuffle on,
3 items, permutation order `[0, 2, 1]`, cursor on the last position), the
wrapped position's item has the same id `"idA"` as the item at the
pre-transition cursor while a differently-id'd item exists, yet
`advance(Next)` accepts position 0 and shows the same id again. -/
theorem claim_C4_counterexample :
    stC4.projectorSettings = some settingsLR ∧
    settingsLR.loop = true ∧ settingsLR.random = true ∧
    stC4.projectorFilesOrder.length > 1 ∧
    stC4.currentProjectorIndex = stC4.projectorFilesOrder.length - 1 ∧
    itemIdAtPos stC4 0 = itemIdAtPos stC4 stC4.currentProjectorIndex ∧
    itemIdAtPos stC4 1 ≠ itemIdAtPos stC4 stC4.currentProjectorIndex ∧
    (advance stC4 Dir.next).1.currentProjectorIndex = 0 ∧
    itemIdAtPos (advance stC4 Dir.next).1
        ((advance stC4 Dir.next).1.currentProjectorIndex)
      = itemIdAtPos stC4 stC4.currentProjectorIndex := by
  decide

/-- C4 amended: the no-repeat-on-wrap rule operates on order entries (item
indexes), not item ids — items that merely share an id are not treated as
repeats. When `advance` wraps either end of the order with loop and shuffle
on and `len(order) > 1`, and the wrapped position's order entry equals the
entry at the pre-transition cursor, the engine keeps advancing in the same
direction until a position with a different entry is found, unless every
entry is identical, in which case the wrapped start position (the repeat)
is accepted. -/
theorem claim_C4_no_repeat_on_wrap (st : ProjState) (stg : Settings)
    (hw : st.windowValid = true)
    (hf : st.projectorFiles ≠ [])
    (hs : st.projectorSettings = some stg)
    (hloop : stg.loop = true) (hrand : stg.random = true)
    (hlen : 1 < st.projectorFilesOrder.length)
    (hb : st.isShowingBackground = false) :
    (st.currentProjectorIndex = st.projectorFilesOrder.length - 1 →
      st.projectorFilesOrder.getD 0 0
        = st.projectorFilesOrder.getD (st.projectorFilesOrder.length - 1) 0 →
      ((∃ j, j < st.projectorFilesOrder.length ∧ st.projectorFilesOrder.getD j 0
          ≠ st.projectorFilesOrder.getD (st.projectorFilesOrder.length - 1) 0) →
        st.projectorFilesOrder.getD
            ((advance st Dir.next).1.currentProjectorIndex) 0
          ≠ st.projectorFilesOrder.getD (st.projectorFilesOrder.length - 1) 0) ∧
      ((∀ j, j < st.projectorFilesOrder.length → st.projectorFilesOrder.getD j 0
          = st.projectorFilesOrder.getD (st.projectorFilesOrder.length - 1) 0) →
        (advance st Dir.next).1.currentProjectorIndex = 0)) ∧
    (st.currentProjectorIndex = 0 →
      st.projectorFilesOrder.getD (st.projectorFilesOrder.length - 1) 0
        = st.projectorFilesOrder.getD 0 0 →
      ((∃ j, j < st.projectorFilesOrder.length ∧ st.projectorFilesOrder.getD j 0
          ≠ st.projectorFilesOrder.getD 0 0) →
        st.projectorFilesOrder.getD
            ((advance st Dir.previous).1.currentProjectorIndex) 0
          ≠ st.projectorFilesOrder.getD 0 0) ∧
      ((∀ j, j < st.projectorFilesOrder.length → st.projectorFilesOrder.getD j 0
          = st.projectorFilesOrder.getD 0 0) →
        (advance st Dir.previous).1.currentProjectorIndex
          = st.projectorFilesOrder.length - 1)) := by
  constructor
  · intro hc heq
    have hskip := advance_next_wrap_skip st stg hw hf hs hloop hrand hlen hb hc heq
    have spec := skipSearchNext_spec st.projectorFilesOrder
      (st.projectorFilesOrder.getD (st.projectorFilesOrder.length - 1) 0) heq
      st.projectorFilesOrder.length 0 (by omega) (by omega)
    constructor
    · rintro ⟨j, hj, hval⟩
      rw [hskip]
      refine spec.2.2 ⟨j, ?_, hj, hval⟩
      rcases Nat.eq_zero_or_pos j with h0 | hpos
      · rw [h0] at hval
        exact absurd heq hval
      · exact hpos
    · intro hall
      rw [hskip]
      exact spec.2.1 (fun j _ h2 => hall j h2)
  · intro hc heq
    have hskip := advance_prev_wrap_skip st stg hw hf hs hloop hrand hlen hb hc heq
    have spec := skipSearchPrev_spec st.projectorFilesOrder
      (st.projectorFilesOrder.getD 0 0) heq
      st.projectorFilesOrder.length (st.projectorFilesOrder.length - 1)
      (by omega) (by omega)
    constructor
    · rintro ⟨j, hj, hval⟩
      rw [hskip]
      refine spec.2.2 ⟨j, ?_, hval⟩
      rcases Nat.lt_or_ge j (st.projectorFilesOrder.length - 1) with h | h
      · exact h
      · have hj' : j = st.projectorFilesOrder.length - 1 := by omega
        rw [hj'] at hval
        exact absurd heq hval
    · intro hall
      rw [hskip]
      exact spec.2.1 (fun j h1 => hall j (by omega))

/-- Closed instance of the amended C4 at a duplicate-entry order:
from `stW4` (order `[1, 0, 1]`, cursor on the last position, wrapped entry
equal to the current entry) `advance(Next)` selects a position holding a
different entry. -/
theorem claim_C4_no_repeat_on_wrap_witness :
    stW4.projectorFilesOrder.getD
        ((advance stW4 Dir.next).1.currentProjectorIndex) 0
      ≠ stW4.projectorFilesOrder.getD (stW4.projectorFilesOrder.length - 1) 0 :=
  ((claim_C4_no_repeat_on_wrap stW4 settingsLR rfl (by decide) rfl rfl rfl
      (by decide) rfl).1 (by decide) (by decide)).1 ⟨1, by decide, by decide⟩

/-- Every branch of `advance` returns a result (`some` index): there is no
failure path. -/
theorem advance_returns_some (st : ProjState) (dir : Dir) :
    (advance st dir).2.2.isSome = true := by
  unfold advance navigateToBackground navigateToIndex
  dsimp only
  rcases dir <;> (repeat' split) <;> rfl

/-- C5: the repeat-avoidance loop always terminates after at most
`len(order)` probes. `advance` runs `skipSearch` with fuel `len(order)`
(starting at the wrapped position, forward from 0 or backward from
`len - 1`); that fuel is never exhausted — any extra fuel leaves the
result unchanged — and in the degenerate case where every order entry
equals the target the loop accepts the repeat, returning the start
position. `advance` itself is total: it returns a result on every input. -/
theorem claim_C5_skip_loop_terminates (order : List Nat) (target k : Nat)
    (st : ProjState) (dir : Dir)
    (hlen : 0 < order.length)
    (hnext : order.getD 0 0 = target)
    (hprev : order.getD (order.length - 1) 0 = target) :
    skipSearch order target 0 true 0 (order.length + k)
      = skipSearch order target 0 true 0 order.length ∧
    skipSearch order target (order.length - 1) false (order.length - 1)
        (order.length + k)
      = skipSearch order target (order.length - 1) false (order.length - 1)
          order.length ∧
    ((∀ j, j < order.length → order.getD j 0 = target) →
      skipSearch order target 0 true 0 order.length = 0 ∧
      skipSearch order target (order.length - 1) false (order.length - 1)
          order.length = order.length - 1) ∧
    (advance st dir).2.2.isSome = true := by
  refine ⟨skipSearchNext_stable order target hnext order.length 0 (by omega)
      (by omega) k,
    skipSearchPrev_stable order target hprev order.length
      (order.length - 1) (by omega) (by omega) k, ?_, advance_returns_some st dir⟩
  intro hall
  exact ⟨(skipSearchNext_spec order target hnext order.length 0 (by omega)
      (by omega)).2.1 (fun j _ h2 => hall j h2),
    (skipSearchPrev_spec order target hprev order.length (order.length - 1)
      (by omega) (by omega)).2.1 (fun j h1 => hall j (by omega))⟩

/-- Closed instance of C5 on an all-identical two-entry order with extra
fuel 5. -/
theorem claim_C5_skip_loop_terminates_witness :
    skipSearch [0, 0] 0 0 true 0 (2 + 5) = skipSearch [0, 0] 0 0 true 0 2 ∧
    skipSearch [0, 0] 0 0 true 0 2 = 0 ∧
    (advance baseState Dir.next).2.2.isSome = true :=
  have h := claim_C5_skip_loop_terminates [0, 0] 0 5 baseState Dir.next
    (by decide) (by decide) (by decide)
  ⟨h.1, (h.2.2.1 (by decide)).1, h.2.2.2⟩

/-- C6: the `navigate-projector-to-index` (`jumpTo`) contract. For an item
index within item bounds, present in the order, issued while the display
surface is active: the cursor becomes the order position holding that
index, Background is cleared, `Navigate(itemIndex)` goes to both surfaces,
the result is success with that index, and the current item index
(`order[cursor]`) immediately reads back as the requested index; the rest
of the session (items, order, playing flag) is untouched. For an
out-of-bounds index, an index missing from the order, or no active display
surface: the result is a failure, no event is emitted, and the whole
session state is unchanged. -/
theorem claim_C6_jumpTo_contract (st : ProjState) (t : Int) :
    (st.windowValid = true → 0 ≤ t → t < (st.projectorFiles.length : Int) →
      t.toNat ∈ st.projectorFilesOrder →
      (navigateProjectorToIndex st t).1.currentProjectorIndex
        = st.projectorFilesOrder.indexOf t.toNat ∧
      (navigateProjectorToIndex st t).1.isShowingBackground = false ∧
      (navigateProjectorToIndex st t).1.projectorFilesOrder
        = st.projectorFilesOrder ∧
      (navigateProjectorToIndex st t).1.projectorFiles = st.projectorFiles ∧
      (navigateProjectorToIndex st t).1.isProjectorPlaying
        = st.isProjectorPlaying ∧
      (navigateProjectorToIndex st t).2.1
        = [(Target.projWin, Ev.navigate t), (Target.mainWin, Ev.navigate t)] ∧
      (navigateProjectorToIndex st t).2.2 = some t ∧
      (navigateProjectorToIndex st t).1.projectorFilesOrder.getD
        ((navigateProjectorToIndex st t).1.currentProjectorIndex) 0 = t.toNat) ∧
    ((st.windowValid = false ∨ t < 0 ∨ (st.projectorFiles.length : Int) ≤ t ∨
        t.toNat ∉ st.projectorFilesOrder) →
      (navigateProjectorToIndex st t).1 = st ∧
      (navigateProjectorToIndex st t).2.1 = [] ∧
      (navigateProjectorToIndex st t).2.2 = none) := by
  constructor
  · intro hw h0 hlt hmem
    have hflen : st.projectorFiles.length ≠ 0 := by
      intro h
      rw [h] at hlt
      omega
    have holen : st.projectorFilesOrder.length ≠ 0 := by
      intro h
      rw [List.length_eq_zero.mp h] at hmem
      simp at hmem
    have hidx := List.indexOf_lt_length.mpr hmem
    have hget : st.projectorFilesOrder.getD
        (st.projectorFilesOrder.indexOf t.toNat) 0 = t.toNat := by
      rw [List.getD_eq_getElem?_getD]
      simp [List.getElem?_eq_getElem hidx]
    have htn : ((t.toNat : Nat) : Int) = t := Int.toNat_of_nonneg h0
    unfold navigateProjectorToIndex
    simp only [hw]
    rw [if_neg (by simp [hflen, holen]), if_neg (by omega), if_pos hmem]
    refine ⟨rfl, rfl, rfl, rfl, rfl, ?_, ?_, hget⟩
    · simp [navigateToIndex, notifyBothWindows, notifyProjectorWindow,
        notifyMainWindow, htn]
    · simp [navigateToIndex, htn]
  · intro hfail
    unfold navigateProjectorToIndex
    dsimp only
    split
    · exact ⟨rfl, rfl, rfl⟩
    · split
      · exact ⟨rfl, rfl, rfl⟩
      · split
        · exfalso
          rename_i h1 h2 h3
          have hw' : st.windowValid = true := by
            by_contra hcon
            rw [Bool.not_eq_true] at hcon
            simp [hcon] at h1
          have hf' : st.projectorFiles.length ≠ 0 := by
            intro hcon
            simp [hcon] at h1
          push_neg at h2
          rcases hfail with h | h | h | h
          · rw [h] at hw'
            simp at hw'
          · omega
          · omega
          · exact h h3
        · exact ⟨rfl, rfl, rfl⟩

/-- Closed instance of C6: in `baseState`, `jumpTo(1)` succeeds and reads
back item index 1; `jumpTo(5)` fails leaving the state unchanged. -/
theorem claim_C6_jumpTo_contract_witness :
    (navigateProjectorToIndex baseState 1).2.2 = some 1 ∧
    (navigateProjectorToIndex baseState 1).1.projectorFilesOrder.getD
      ((navigateProjectorToIndex baseState 1).1.currentProjectorIndex) 0
      = (1 : Int).toNat ∧
    (navigateProjectorToIndex baseState 5).1 = baseState ∧
    (navigateProjectorToIndex baseState 5).2.2 = none :=
  have hok := (claim_C6_jumpTo_contract baseState 1).1 rfl (by decide) (by decide)
    (by decide)
  have hbad := (claim_C6_jumpTo_contract baseState 5).2
    (Or.inr (Or.inr (Or.inl (by decide))))
  ⟨hok.2.2.2.2.2.2.1, hok.2.2.2.2.2.2.2, hbad.1, hbad.2.2⟩

/-- C7 as stated is false on the code: `update-projector-settings`
regenerates the order on every call, not only when the effective shuffle
value changed. In `st7` (two items), two consecutive calls with the same
normalized settings (loop on, shuffle on) whose Fisher–Yates draws differ
produce a different order than the single call did — a spurious
reshuffle. -/
theorem claim_C7_counterexample :
    (updateSettings (updateSettings st7 settingsLR (fun _ => 1)).1 settingsLR
        (fun _ => 0)).1.projectorFilesOrder
      ≠ (updateSettings st7 settingsLR (fun _ => 1)).1.projectorFilesOrder := by
  decide

/-- C7 amended: `updateSettings` regenerates the order on every accepted
call. Idempotence on the order holds when the normalized shuffle flag is
off — both calls store the identity order (and the same settings) — but
with shuffle on the second call reshuffles, so the order may differ. -/
theorem claim_C7_updateSettings_idempotent_when_unshuffled (st : ProjState)
    (stg : Settings) (js1 js2 : Nat → Nat)
    (hw : st.windowValid = true)
    (hrand : (validateSettings stg).random = false) :
    (updateSettings (updateSettings st stg js1).1 stg js2).1.projectorFilesOrder
      = (updateSettings st stg js1).1.projectorFilesOrder ∧
    (updateSettings (updateSettings st stg js1).1 stg js2).1.projectorSettings
      = (updateSettings st stg js1).1.projectorSettings := by
  have h1 : (updateSettings st stg js1).1 =
      { st with
        projectorSettings := some (validateSettings stg)
        projectorFilesOrder :=
          generateOrder st.projectorFiles.length (validateSettings stg).random js1 } := by
    simp [updateSettings, hw]
  constructor
  · rw [h1]
    simp [updateSettings, hw, hrand, generateOrder]
  · rw [h1]
    simp [updateSettings, hw]

/-- Closed instance of the amended C7 at a concrete unshuffled session. -/
theorem claim_C7_updateSettings_idempotent_when_unshuffled_witness :
    (updateSettings (updateSettings st7 settingsPlain (fun _ => 1)).1 settingsPlain
        (fun _ => 0)).1.projectorFilesOrder
      = (updateSettings st7 settingsPlain (fun _ => 1)).1.projectorFilesOrder :=
  (claim_C7_updateSettings_idempotent_when_unshuffled st7 settingsPlain
    (fun _ => 1) (fun _ => 0) rfl (by decide)).1

/-- C8 as stated is false on the code: it quantifies over every state with
Background active and a non-empty order, but in `st8` (Background active
while the playing flag is still true — reachable via the display surface
reporting index -1 during playback) `toggle-projector-play-pause` flips
playing to `false` and leaves Background shown, instead of the claimed
transition to playing with the first item current. -/
theorem claim_C8_counterexample :
    st8.windowValid = true ∧
    st8.isShowingBackground = true ∧
    st8.projectorFilesOrder ≠ [] ∧
    (togglePlayPause st8).1.isProjectorPlaying = false ∧
    (togglePlayPause st8).1.isShowingBackground = true ∧
    (togglePlayPause st8).1.currentProjectorIndex = st8.currentProjectorIndex ∧
    (togglePlayPause st8).2.1 =
      [(Target.projWin, Ev.playPause false), (Target.mainWin, Ev.playPause false)] := by
  decide

/-- C8 amended: for every state with Background active, a non-empty order
and playing currently `false`, `toggle-projector-play-pause` flips playing
to `true`, clears Background, moves the cursor to order position 0, and
emits `Navigate(order[0])` before `PlayPause(true)`, each to both
surfaces. -/
theorem claim_C8_play_from_background (st : ProjState)
    (hw : st.windowValid = true)
    (hb : st.isShowingBackground = true)
    (hp : st.isProjectorPlaying = false)
    (ho : st.projectorFilesOrder ≠ []) :
    (togglePlayPause st).1.isProjectorPlaying = true ∧
    (togglePlayPause st).1.isShowingBackground = false ∧
    (togglePlayPause st).1.currentProjectorIndex = 0 ∧
    (togglePlayPause st).2.1 =
      [(Target.projWin, Ev.navigate (st.projectorFilesOrder.getD 0 0 : Nat)),
       (Target.mainWin, Ev.navigate (st.projectorFilesOrder.getD 0 0 : Nat)),
       (Target.projWin, Ev.playPause true),
       (Target.mainWin, Ev.playPause true)] ∧
    (togglePlayPause st).2.2 = some true := by
  have holen : 0 < st.projectorFilesOrder.length := List.length_pos.mpr ho
  unfold togglePlayPause
  simp [hw, hb, hp, holen, notifyBothWindows, notifyProjectorWindow,
    notifyMainWindow]

/-- Closed instance of the amended C8: from paused Background, toggling
plays the first item, in the Navigate-then-PlayPause order. -/
theorem claim_C8_play_from_background_witness :
    (togglePlayPause stW8).1.isProjectorPlaying = true ∧
    (togglePlayPause stW8).2.1 =
      [(Target.projWin, Ev.navigate (stW8.projectorFilesOrder.getD 0 0 : Nat)),
       (Target.mainWin, Ev.navigate (stW8.projectorFilesOrder.getD 0 0 : Nat)),
       (Target.projWin, Ev.playPause true),
       (Target.mainWin, Ev.playPause true)] :=
  have h := claim_C8_play_from_background stW8 rfl rfl rfl (by decide)
  ⟨h.1, h.2.2.2.1⟩

/-- C9 as stated is false on the code: re-opening the display surface with
a session active does not preserve the cursor. In `baseState` (surface
active, cursor at order position 2) `createProjectorWindow` resets the
cursor to 0 and announces item 0 — position 0 of the regenerated order —
to both surfaces, not the pre-call current position 2. -/
theorem claim_C9_counterexample :
    baseState.windowValid = true ∧
    baseState.currentProjectorIndex = 2 ∧
    (createProjectorWindow baseState baseState.projectorFiles settingsPlain
        (fun _ => 0)).1.currentProjectorIndex = 0 ∧
    (createProjectorWindow baseState baseState.projectorFiles settingsPlain
        (fun _ => 0)).2 =
      [(Target.projWin, Ev.settingsChanged (validateSettings settingsPlain)),
       (Target.projWin, Ev.navigate 0),
       (Target.mainWin, Ev.opened), (Target.mainWin, Ev.navigate 0)] := by
  decide

/-- C9 amended: calling `createProjectorWindow` while a display surface is
active re-synchronizes the session in place, but resets the cursor to
order position 0 rather than preserving it; the surface stays valid,
Background is cleared, the normalized settings are stored, and the
`Navigate` events sent to both surfaces announce the item at the new
cursor — position 0 of the regenerated order. -/
theorem claim_C9_reopen_resync (st : ProjState) (files : List Item)
    (settings : Settings) (js : Nat → Nat)
    (hw : st.windowValid = true) (hf : files ≠ []) :
    (createProjectorWindow st files settings js).1.currentProjectorIndex = 0 ∧
    (createProjectorWindow st files settings js).1.windowValid = true ∧
    (createProjectorWindow st files settings js).1.isShowingBackground = false ∧
    (createProjectorWindow st files settings js).1.projectorSettings
      = some (validateSettings settings) ∧
    ((Target.projWin, Ev.navigate
        ((createProjectorWindow st files settings js).1.projectorFilesOrder.getD
          ((createProjectorWindow st files settings js).1.currentProjectorIndex) 0 : Nat))
      ∈ (createProjectorWindow st files settings js).2 ∧
     (Target.mainWin, Ev.navigate
        ((createProjectorWindow st files settings js).1.projectorFilesOrder.getD
          ((createProjectorWindow st files settings js).1.currentProjectorIndex) 0 : Nat))
      ∈ (createProjectorWindow st files settings js).2) := by
  have hlen : 0 < (generateOrder files.length
      (validateSettings settings).random js).length := by
    rw [generateOrder_length]
    exact List.length_pos.mpr hf
  have hini : initialIndex (generateOrder files.length
        (validateSettings settings).random js)
      = ((generateOrder files.length
          (validateSettings settings).random js).getD 0 0 : Nat) := by
    unfold initialIndex
    rw [if_pos hlen]
  refine ⟨rfl, rfl, rfl, rfl, ?_, ?_⟩ <;>
    · show _ ∈ notifyProjectorWindow _ ++ notifyProjectorWindow
        (Ev.navigate (initialIndex _)) ++ _ ++ notifyMainWindow Ev.opened ++
        notifyMainWindow (Ev.navigate (initialIndex _))
      rw [hini]
      simp [notifyProjectorWindow, notifyMainWindow, List.mem_append]
      first
      | exact Or.inl rfl
      | exact Or.inr rfl

/-- Closed instance of the amended C9 at `baseState`. -/
theorem claim_C9_reopen_resync_witness :
    (createProjectorWindow baseState baseState.projectorFiles settingsPlain
        (fun _ => 0)).1.currentProjectorIndex = 0 ∧
    (Target.mainWin, Ev.navigate
        ((createProjectorWindow baseState baseState.projectorFiles settingsPlain
            (fun _ => 0)).1.projectorFilesOrder.getD
          ((createProjectorWindow baseState baseState.projectorFiles settingsPlain
              (fun _ => 0)).1.currentProjectorIndex) 0 : Nat))
      ∈ (createProjectorWindow baseState baseState.projectorFiles settingsPlain
          (fun _ => 0)).2 :=
  have h := claim_C9_reopen_resync baseState baseState.projectorFiles
    settingsPlain (fun _ => 0) rfl (by decide)
  ⟨h.1, h.2.2.2.2.2⟩

/-- C10: `navigate-projector` never reports failure — every call returns a
success result — and when the display surface is absent (likewise when the
item list or the order is empty) it returns success with index -1 and sets
the Background flag, emitting Navigate(-1) to both surfaces; under the
same absent-surface condition `navigate-projector-to-index` returns a
failure result, so the two handlers treat a missing display surface
differently. -/
theorem claim_C10_advance_never_fails (st : ProjState) (dir : Dir) (t : Int) :
    (advance st dir).2.2.isSome = true ∧
    (st.windowValid = false →
      (advance st dir).2.2 = some (-1) ∧
      (advance st dir).1.isShowingBackground = true ∧
      (advance st dir).2.1 =
        [(Target.projWin, Ev.navigate (-1)), (Target.mainWin, Ev.navigate (-1))] ∧
      (navigateProjectorToIndex st t).2.2 = none) ∧
    (st.projectorFiles = [] →
      (advance st dir).2.2 = some (-1) ∧
      (advance st dir).1.isShowingBackground = true) ∧
    (st.projectorFilesOrder = [] →
      (advance st dir).2.2 = some (-1) ∧
      (advance st dir).1.isShowingBackground = true) := by
  refine ⟨advance_returns_some st dir, ?_, ?_, ?_⟩
  · intro h
    have h1 : advance st dir = ({ st with isShowingBackground := true },
        notifyBothWindows (Ev.navigate (-1)), some (-1)) := by
      unfold advance
      simp [h]
    have h2 : (navigateProjectorToIndex st t).2.2 = none := by
      unfold navigateProjectorToIndex
      simp [h]
    refine ⟨by rw [h1], by rw [h1], ?_, h2⟩
    rw [h1]
    simp [notifyBothWindows, notifyProjectorWindow, notifyMainWindow]
  · intro h
    have h1 : advance st dir = ({ st with isShowingBackground := true },
        notifyBothWindows (Ev.navigate (-1)), some (-1)) := by
      unfold advance
      simp [h]
    exact ⟨by rw [h1], by rw [h1]⟩
  · intro h
    have h1 : advance st dir = ({ st with isShowingBackground := true },
        notifyBothWindows (Ev.navigate (-1)), some (-1)) := by
      unfold advance
      simp [h]
    exact ⟨by rw [h1], by rw [h1]⟩

/-- Closed instance of C10 with the display surface gone. -/
theorem claim_C10_advance_never_fails_witness :
    (advance stInv Dir.next).2.2 = some (-1) ∧
    (advance stInv Dir.next).1.isShowingBackground = true ∧
    (navigateProjectorToIndex stInv 0).2.2 = none :=
  have h := (claim_C10_advance_never_fails stInv Dir.next 0).2.1 rfl
  ⟨h.1, h.2.1, h.2.2.2⟩

end SimpleProjector
